import Mathlib

/-!
Shallow embedding of the jwt-pizza-service core: the authentication and
revocation lifecycle, role-based access control, the listing helper
(pagination and name filtering), franchise creation, and the order
fulfillment workflow.  The repository's own sources are its test suites;
the service implementation they exercise is reconstructed here from the
specification, with response shapes and messages pinned to what the test
suites assert.
-/

/-- Modelled from the spec: the three roles of the RBAC model
(`Role.Admin | Role.Diner | Role.Franchisee`), as tagged variants. -/
inductive Role where
  | Admin
  | Diner
  | Franchisee
  deriving DecidableEq

/-- Modelled from the spec: a RoleGrant `{role, objectId}` held by a user;
`objectId` is 0 for global roles and a franchise id for Franchisee grants. -/
structure RoleGrant where
  role : Role
  objectId : Nat
  deriving DecidableEq

/-- Modelled from the spec: a persisted User row `{id, name, email,
passwordHash, roles}`.  The numeric row id is a `Nat`. -/
structure User where
  id : Nat
  name : String
  email : String
  passwordHash : String
  roles : List RoleGrant
  deriving DecidableEq

/-- Modelled from the spec: a Franchise row `{id, name, admins}` where
`admins` holds the user ids of the franchise admins. -/
structure Franchise where
  id : Nat
  name : String
  admins : List Nat
  deriving DecidableEq

/-- Modelled from the spec: a Store row `{id, franchiseId, name,
totalRevenue}`.  Money is modelled as an exact numeric count. -/
structure Store where
  id : Nat
  franchiseId : Nat
  name : String
  totalRevenue : Nat
  deriving DecidableEq

/-- Modelled from the spec: a MenuItem row `{id, title, description, image,
price}` of the append-only catalog. -/
structure MenuItem where
  id : Nat
  title : String
  description : String
  image : String
  price : Nat
  deriving DecidableEq

/-- Modelled from the spec: an OrderItem `{menuId, description, price}`
snapshotting description and price at order time (its own row id elided). -/
structure OrderItem where
  menuId : Nat
  description : String
  price : Nat
  deriving DecidableEq

/-- Modelled from the spec: an Order `{id, dinerId, franchiseId, storeId,
items}` (the order date is elided, no claim concerns it). -/
structure Order where
  id : Nat
  dinerId : Nat
  franchiseId : Nat
  storeId : Nat
  items : List OrderItem
  deriving DecidableEq

/-- Modelled from the spec: a stateless session token carrying the user id
and the per-user revocation generation embedded at issuance.  Signature
validity is abstracted away: every `Token` value stands for a well-signed,
unexpired token. -/
structure Token where
  userId : Nat
  generation : Nat
  deriving DecidableEq

/-- Modelled from the spec: the whole service state — the persisted rows
plus the Revocation Registry, which holds one generation counter per user
id (`registry`), and the next fresh row id. -/
structure ServiceState where
  users : List User
  registry : Nat → Nat
  franchises : List Franchise
  stores : List Store
  menu : List MenuItem
  orders : List Order
  nextId : Nat

/-- Modelled from the spec: the Password Hasher, abstracted as an injective
tagging function (the one-way property is irrelevant to every claim; only
match/mismatch of hashes is observed). -/
def hashPw (p : String) : String := "hashed:" ++ p

/-- Modelled from the spec: look up a user row by id (first match). -/
def findUserById (s : ServiceState) (uid : Nat) : Option User :=
  s.users.find? (fun u => u.id == uid)

/-- Modelled from the spec: look up a user row by email (first match;
emails are unique among active users). -/
def findUserByEmail (s : ServiceState) (email : String) : Option User :=
  s.users.find? (fun u => u.email == email)

/-- Modelled from the spec: whether a single RoleGrant is the global Admin
role. -/
def RoleGrant.isAdmin : RoleGrant → Bool
  | ⟨Role.Admin, _⟩ => true
  | _ => false

/-- Modelled from the spec: whether a user holds the Admin role. -/
def isAdminUser (u : User) : Bool := u.roles.any (fun g => g.isAdmin)

/-- Modelled from the spec: whether a user holds a Franchisee grant scoped
to the given franchise id. -/
def isFranchiseeOf (u : User) (fid : Nat) : Bool :=
  u.roles.any (fun g => g.role == Role.Franchisee && g.objectId == fid)

/-- Modelled from the spec: token issuance embeds the user's current
revocation generation. -/
def issueToken (s : ServiceState) (uid : Nat) : Token :=
  ⟨uid, s.registry uid⟩

/-- Modelled from the spec: `authenticate` — a token identifies a user iff
the user id still resolves to a row and the embedded generation matches the
user's current generation in the Revocation Registry; otherwise the caller
is unauthenticated. -/
def authenticate (s : ServiceState) (t : Token) : Option User :=
  match findUserById s t.userId with
  | none => none
  | some u => if s.registry t.userId == t.generation then some u else none

/-- Modelled from the spec: the authentication gate every identity-requiring
endpoint passes through; a missing or non-authenticating token fails closed
with status 401 and the generic message. -/
def requireAuth (s : ServiceState) : Option Token → Except (Nat × String) User
  | none => .error (401, "unauthorized")
  | some t =>
    match authenticate s t with
    | none => .error (401, "unauthorized")
    | some u => .ok u

/-- Modelled from the spec: `login` — missing email then missing password
fail Validation; an absent user and a hash mismatch fail with the one
identical `Unauthorized` message; success issues a fresh token. -/
def login (s : ServiceState) (email password : Option String) :
    Except (Nat × String) (User × Token) :=
  match email with
  | none => .error (400, "Email is required")
  | some e =>
    match password with
    | none => .error (400, "Password is required")
    | some p =>
      match findUserByEmail s e with
      | none => .error (401, "Invalid email or password")
      | some u =>
        if u.passwordHash == hashPw p then .ok (u, issueToken s u.id)
        else .error (401, "Invalid email or password")

/-- Modelled from the spec: `updateProfile` — allowed for self or Admin;
otherwise a 403 denial that (per the test suite) reuses the generic
"unauthorized" message; a missing target fails NotFound; on success the row
is rewritten and a fresh token is issued against the updated state. -/
def updateUser (s : ServiceState) (tok : Option Token) (targetId : Nat)
    (name email password : String) :
    Except (Nat × String) (User × Token) × ServiceState :=
  match requireAuth s tok with
  | .error e => (.error e, s)
  | .ok actor =>
    if actor.id == targetId || isAdminUser actor then
      match findUserById s targetId with
      | none => (.error (404, "user not found"), s)
      | some target =>
        let target' : User :=
          { target with name := name, email := email, passwordHash := hashPw password }
        let s' : ServiceState :=
          { s with users := s.users.map (fun u => if u.id == targetId then target' else u) }
        (.ok (target', issueToken s' targetId), s')
    else (.error (403, "unauthorized"), s)

/-- Modelled from the spec: `deleteUser` — Admin-only (a non-admin caller is
denied 403 with, per the test suite, the generic "unauthorized" message); a
missing target fails NotFound 404; an Admin target fails Forbidden 403; on
success the user row is hard-deleted and the target's revocation generation
is bumped, revoking every outstanding session of that user. -/
def deleteUser (s : ServiceState) (tok : Option Token) (targetId : Nat) :
    Except (Nat × String) Unit × ServiceState :=
  match requireAuth s tok with
  | .error e => (.error e, s)
  | .ok actor =>
    if isAdminUser actor then
      match findUserById s targetId with
      | none => (.error (404, "user not found"), s)
      | some target =>
        if isAdminUser target then
          (.error (403, "unable to delete admin user"), s)
        else
          (.ok (),
           { s with
             users := s.users.filter (fun u => u.id != targetId),
             registry := fun j => if j == targetId then s.registry j + 1 else s.registry j })
    else (.error (403, "unauthorized"), s)

/-- Modelled from the spec: the shared Listing helper — fetch `limit + 1`
rows in stable order starting at offset `page * limit`; if `limit + 1` came
back, `more` is true and only the first `limit` are returned, else `more`
is false. -/
def listPage {α : Type} (rows : List α) (page limit : Nat) : List α × Bool :=
  let fetched := (rows.drop (page * limit)).take (limit + 1)
  if fetched.length == limit + 1 then (fetched.take limit, true)
  else (fetched, false)

/-- Modelled from the spec: the name-filter predicate of the Listing helper —
no filter accepts every row; a filter ending in a trailing star accepts
names starting with the part before the star; any other filter requires
exact equality. -/
def matchName : Option String → String → Bool
  | none, _ => true
  | some f, n =>
    if f.data.getLast? == some '*' then f.data.dropLast.isPrefixOf n.data
    else n == f

/-- Modelled from the spec: `listUsers` — Admin-only listing of users with
the shared name filter and pagination helper; a non-admin caller is denied
403 with, per the test suite, the generic "unauthorized" message. -/
def listUsers (s : ServiceState) (tok : Option Token) (nameFilter : Option String)
    (page limit : Nat) : Except (Nat × String) (List User × Bool) :=
  match requireAuth s tok with
  | .error e => .error e
  | .ok actor =>
    if isAdminUser actor then
      .ok (listPage (s.users.filter (fun u => matchName nameFilter u.name)) page limit)
    else .error (403, "unauthorized")

/-- Modelled from the spec: resolve a list of admin emails to user ids;
`none` as soon as any email does not resolve to a user. -/
def resolveEmails (s : ServiceState) : List String → Option (List Nat)
  | [] => some []
  | e :: rest =>
    match findUserByEmail s e with
    | none => none
    | some u => (resolveEmails s rest).map (fun ids => u.id :: ids)

/-- Modelled from the spec: `createFranchise` — Admin-only (denied 403 with
the endpoint-specific message "unable to create a franchise"); naming any
email that does not resolve to a user fails NotFound 404 with no Franchise
row persisted; on success the franchise is appended with the resolved
admin ids. -/
def createFranchise (s : ServiceState) (tok : Option Token) (name : String)
    (adminEmails : List String) :
    Except (Nat × String) Franchise × ServiceState :=
  match requireAuth s tok with
  | .error e => (.error e, s)
  | .ok actor =>
    if isAdminUser actor then
      match resolveEmails s adminEmails with
      | none => (.error (404, "unknown user for franchise admin"), s)
      | some adminIds =>
        let fr : Franchise := ⟨s.nextId, name, adminIds⟩
        (.ok fr, { s with franchises := s.franchises ++ [fr], nextId := s.nextId + 1 })
    else (.error (403, "unable to create a franchise"), s)

/-- Modelled from the spec: the franchises a user administers. -/
def franchisesForUser (s : ServiceState) (uid : Nat) : List Franchise :=
  s.franchises.filter (fun f => f.admins.contains uid)

/-- Modelled from the spec: `listFranchisesForUser` — an Admin or the user
themself sees the user's franchises; any other authenticated caller gets a
successful response whose body is the empty list (the test suite pins this
denial-as-empty-result shape: status 200, body `[]`). -/
def listFranchisesForUser (s : ServiceState) (tok : Option Token) (uid : Nat) :
    Except (Nat × String) (List Franchise) :=
  match requireAuth s tok with
  | .error e => .error e
  | .ok caller =>
    if isAdminUser caller || caller.id == uid then .ok (franchisesForUser s uid)
    else .ok []

/-- Modelled from the spec: a value of the JSON-like response body of
`createOrder` — either a string or an embedded order. -/
inductive BodyVal where
  | str : String → BodyVal
  | ord : Order → BodyVal
  deriving DecidableEq

/-- Modelled from the spec: the Fulfillment Client's response
`{accepted, reportUrl, jwt}`; a transport failure is represented as a
rejection (`accepted = false`), matching the spec's single failure path. -/
structure FactoryResponse where
  accepted : Bool
  reportUrl : String
  jwt : String
  deriving DecidableEq

/-- Modelled from the spec: whether the franchise/store pair resolves to an
existing, linked Store row. -/
def storeExists (s : ServiceState) (fid sid : Nat) : Bool :=
  s.stores.any (fun st => st.id == sid && st.franchiseId == fid)

/-- Modelled from the spec: whether every item's menuId resolves to a
current MenuItem. -/
def itemsValid (s : ServiceState) (items : List OrderItem) : Bool :=
  items.all (fun it => s.menu.any (fun m => m.id == it.menuId))

/-- Modelled from the spec: an order's total price, the sum of its item
prices. -/
def orderTotal (items : List OrderItem) : Nat :=
  (items.map (fun it => it.price)).sum

/-- Modelled from the spec: the atomic revenue increment on the target
store. -/
def bumpRevenue (stores : List Store) (sid amount : Nat) : List Store :=
  stores.map (fun st =>
    if st.id == sid then { st with totalRevenue := st.totalRevenue + amount } else st)

/-- Modelled from the spec: `createOrder` — authenticate, validate the
franchise/store pair and the menu ids, persist the Order, then reconcile the
Fulfillment Client's response: acceptance returns status 200 with body keys
`order`, `followLinkToEndChaos` (the report URL) and `jwt` (the key names
are pinned by the test suite) and bumps the store's revenue by the order
total; rejection returns status 500 with the exact message
"Failed to fulfill order at factory" and the report URL, keeps the
persisted Order, and skips the revenue increment.  The response is a pair
(status, key-value body) together with the post-state. -/
def createOrder (s : ServiceState) (tok : Option Token) (fid sid : Nat)
    (items : List OrderItem) (factory : FactoryResponse) :
    (Nat × List (String × BodyVal)) × ServiceState :=
  match requireAuth s tok with
  | .error (code, msg) => ((code, [("message", BodyVal.str msg)]), s)
  | .ok diner =>
    if storeExists s fid sid && itemsValid s items then
      let order : Order := ⟨s.nextId, diner.id, fid, sid, items⟩
      let s1 : ServiceState :=
        { s with orders := s.orders ++ [order], nextId := s.nextId + 1 }
      if factory.accepted then
        ((200,
          [("order", BodyVal.ord order),
           ("followLinkToEndChaos", BodyVal.str factory.reportUrl),
           ("jwt", BodyVal.str factory.jwt)]),
         { s1 with stores := bumpRevenue s1.stores sid (orderTotal items) })
      else
        ((500,
          [("message", BodyVal.str "Failed to fulfill order at factory"),
           ("followLinkToEndChaos", BodyVal.str factory.reportUrl)]),
         s1)
    else ((400, [("message", BodyVal.str "unable to process order")]), s)

/-- Modelled from the spec: whether a franchise id resolves to a row. -/
def franchiseExists (s : ServiceState) (fid : Nat) : Bool :=
  s.franchises.any (fun f => f.id == fid)

/-- Modelled from the spec: `addMenuItem` — Admin-only append to the catalog
returning the full refreshed menu; a non-admin caller is denied 403 with
the endpoint-specific message "unable to add menu item" pinned by the
order test suite. -/
def addMenuItem (s : ServiceState) (tok : Option Token)
    (title description image : String) (price : Nat) :
    Except (Nat × String) (List MenuItem) × ServiceState :=
  match requireAuth s tok with
  | .error e => (.error e, s)
  | .ok actor =>
    if isAdminUser actor then
      let menu' := s.menu ++ [⟨s.nextId, title, description, image, price⟩]
      (.ok menu', { s with menu := menu', nextId := s.nextId + 1 })
    else (.error (403, "unable to add menu item"), s)

/-- Modelled from the spec: `createStore` — allowed for an Admin or a
Franchisee scoped to the franchise, on an existing franchise; every other
case is denied 403 with the endpoint-specific message "unable to create a
store" pinned by the franchise test suite (also used for a non-existent
franchise); a new store starts at zero revenue. -/
def createStore (s : ServiceState) (tok : Option Token) (fid : Nat)
    (sname : String) : Except (Nat × String) Store × ServiceState :=
  match requireAuth s tok with
  | .error e => (.error e, s)
  | .ok actor =>
    if franchiseExists s fid && (isAdminUser actor || isFranchiseeOf actor fid) then
      let st : Store := ⟨s.nextId, fid, sname, 0⟩
      (.ok st, { s with stores := s.stores ++ [st], nextId := s.nextId + 1 })
    else (.error (403, "unable to create a store"), s)

/-- Helper: filtering by a predicate every match of which is already in the
filter keeps the first `find?` result. -/
theorem find?_filter_of_imp {α : Type} (p q : α → Bool) (l : List α)
    (h : ∀ x, p x = true → q x = true) : (l.filter q).find? p = l.find? p := by
  induction l with
  | nil => rfl
  | cons a t ih =>
    by_cases hq : q a = true
    · simp only [List.filter_cons, hq, if_true, List.find?_cons]
      cases hp : p a <;> simp [hp, ih]
    · have hp : p a = false := by
        cases hpa : p a
        · rfl
        · exact absurd (h a hpa) hq
      simp only [List.filter_cons, hq, if_false, List.find?_cons, hp]
      simpa [hp] using ih

/-- Helper: if every element kept by the filter fails the search predicate,
`find?` over the filtered list finds nothing. -/
theorem find?_filter_none {α : Type} (p q : α → Bool) (l : List α)
    (h : ∀ x, q x = true → p x = false) : (l.filter q).find? p = none := by
  induction l with
  | nil => rfl
  | cons a t ih =>
    by_cases hq : q a = true
    · simp only [List.filter_cons, hq, if_true, List.find?_cons, h a hq]
      exact ih
    · simp only [List.filter_cons, hq, if_false]
      exact ih

/-- Helper: an email contained in the list that does not resolve makes the
whole resolution fail. -/
theorem resolveEmails_eq_none (s : ServiceState) (e : String) (emails : List String)
    (hmem : e ∈ emails) (hmiss : findUserByEmail s e = none) :
    resolveEmails s emails = none := by
  induction emails with
  | nil => cases hmem
  | cons a t ih =>
    cases hmem with
    | head => simp [resolveEmails, hmiss]
    | tail _ hm =>
      unfold resolveEmails
      cases hfind : findUserByEmail s a with
      | none => rfl
      | some u => simp [ih hm]

/-- Helper: inversion of the authentication gate — a successful
`requireAuth` comes from a token that `authenticate` accepts. -/
theorem requireAuth_ok_inv (s : ServiceState) (tok : Option Token) (u : User)
    (h : requireAuth s tok = .ok u) : ∃ t, tok = some t ∧ authenticate s t = some u := by
  cases tok with
  | none => simp [requireAuth] at h
  | some t =>
    refine ⟨t, rfl, ?_⟩
    cases ha : authenticate s t with
    | none => simp [requireAuth, ha] at h
    | some v =>
      simp [requireAuth, ha] at h
      rw [h]

/-- Helper: characterization of a token `authenticate` accepts. -/
theorem authenticate_eq_some_iff (s : ServiceState) (t : Token) (u : User) :
    authenticate s t = some u ↔
      findUserById s t.userId = some u ∧ (s.registry t.userId == t.generation) = true := by
  unfold authenticate
  cases hf : findUserById s t.userId with
  | none => simp
  | some v =>
    by_cases hg : (s.registry t.userId == t.generation) = true
    · simp [hg]
    · simp [hg]

/-- Helper: the state a successful `deleteUser` leaves behind — the target
row filtered out and the target's generation bumped. -/
theorem deleteUser_ok_state (s : ServiceState) (tok : Option Token) (targetId : Nat)
    (h : (deleteUser s tok targetId).1 = .ok ()) :
    (deleteUser s tok targetId).2 =
      { s with
        users := s.users.filter (fun u => u.id != targetId),
        registry := fun j => if j == targetId then s.registry j + 1 else s.registry j } := by
  cases hra : requireAuth s tok with
  | error e => simp [deleteUser, hra] at h
  | ok actor =>
    by_cases hadm : isAdminUser actor = true
    · cases hf : findUserById s targetId with
      | none => simp [deleteUser, hra, hadm, hf] at h
      | some target =>
        by_cases htadm : isAdminUser target = true
        · simp [deleteUser, hra, hadm, hf, htadm] at h
        · simp [deleteUser, hra, hadm, hf, htadm]
    · simp [deleteUser, hra, hadm] at h

/-- Witness fixture mirroring the seeded admin of testSetup.js. -/
def adminUser0 : User :=
  ⟨1, "Admin User", "admin@test.com", hashPw "admin123", [⟨Role.Admin, 0⟩]⟩

/-- Witness fixture mirroring the seeded diner of testSetup.js. -/
def dinerUser0 : User :=
  ⟨2, "Diner User", "diner@test.com", hashPw "diner123", [⟨Role.Diner, 0⟩]⟩

/-- Witness fixture mirroring the seeded franchisee of testSetup.js, admin
of the seeded franchise. -/
def franchiseeUser0 : User :=
  ⟨3, "Franchisee User", "franchisee@test.com", hashPw "franchisee123",
   [⟨Role.Diner, 0⟩, ⟨Role.Franchisee, 10⟩]⟩

/-- Witness fixture mirroring the seeded state of testSetup.js: three users,
one franchise administered by the franchisee, one store, one menu item. -/
def sampleState : ServiceState :=
  { users := [adminUser0, dinerUser0, franchiseeUser0]
    registry := fun _ => 0
    franchises := [⟨10, "Test Franchise", [3]⟩]
    stores := [⟨20, 10, "Test Store", 0⟩]
    menu := [⟨30, "Veggie", "A garden of delight", "pizza1.png", 38⟩]
    orders := []
    nextId := 100 }

/-- Claim C1: after `deleteUser` succeeds on a user, every token carrying
that user's id is rejected with 401 on any subsequent authenticated call,
while a token of any other user that authenticated before the deletion
still authenticates to the same identity afterwards. -/
theorem claim1_delete_revokes_only_target_sessions
    (s : ServiceState) (tok : Option Token) (uid : Nat)
    (h : (deleteUser s tok uid).1 = .ok ()) :
    (∀ tk : Token, tk.userId = uid →
      requireAuth (deleteUser s tok uid).2 (some tk) = .error (401, "unauthorized"))
    ∧ (∀ (tk : Token) (u : User), tk.userId ≠ uid →
        requireAuth s (some tk) = .ok u →
        requireAuth (deleteUser s tok uid).2 (some tk) = .ok u) := by
  rw [deleteUser_ok_state s tok uid h]
  constructor
  · intro tk htk
    have hfind :
        (s.users.filter (fun u => u.id != uid)).find? (fun u => u.id == tk.userId) = none := by
      apply find?_filter_none
      intro x hx
      rw [htk, beq_eq_false_iff_ne]
      exact bne_iff_ne.mp hx
    simp [requireAuth, authenticate, findUserById, hfind]
  · intro tk u hne hok
    obtain ⟨t', ht', ha⟩ := requireAuth_ok_inv s (some tk) u hok
    injection ht' with ht''
    subst ht''
    rw [authenticate_eq_some_iff] at ha
    obtain ⟨hfind, hgen⟩ := ha
    have hfind' :
        (s.users.filter (fun x => x.id != uid)).find? (fun x => x.id == tk.userId) = some u := by
      rw [find?_filter_of_imp]
      · simpa [findUserById] using hfind
      · intro x hx
        have hxe : x.id = tk.userId := by simpa using hx
        rw [bne_iff_ne, hxe]
        exact hne
    have hbe : (tk.userId == uid) = false := beq_eq_false_iff_ne.mpr hne
    simp [requireAuth, authenticate, findUserById, hfind', hbe, hgen]

/-- Witness for C1: the seeded admin deletes the diner; the diner's token
is then rejected while the franchisee's token still works. -/
theorem claim1_witness :
    (deleteUser sampleState (some ⟨1, 0⟩) 2).1 = .ok ()
    ∧ requireAuth (deleteUser sampleState (some ⟨1, 0⟩) 2).2 (some ⟨2, 0⟩) =
        .error (401, "unauthorized")
    ∧ requireAuth (deleteUser sampleState (some ⟨1, 0⟩) 2).2 (some ⟨3, 0⟩) =
        .ok franchiseeUser0 := by
  have h : (deleteUser sampleState (some ⟨1, 0⟩) 2).1 = .ok () := by rfl
  exact ⟨h,
    (claim1_delete_revokes_only_target_sessions sampleState (some ⟨1, 0⟩) 2 h).1 ⟨2, 0⟩ rfl,
    (claim1_delete_revokes_only_target_sessions sampleState (some ⟨1, 0⟩) 2 h).2 ⟨3, 0⟩
      franchiseeUser0 (by decide) (by rfl)⟩

/-- Claim C2: a login whose email resolves to no user and a login whose
email resolves but whose password hash mismatches produce the identical
result — status 401 with the exact message "Invalid email or password" —
so the two failure causes are indistinguishable to the caller. -/
theorem claim2_login_failure_indistinguishable (s : ServiceState) (e p : String) :
    (findUserByEmail s e = none →
      login s (some e) (some p) = .error (401, "Invalid email or password"))
    ∧ (∀ u : User, findUserByEmail s e = some u → u.passwordHash ≠ hashPw p →
      login s (some e) (some p) = .error (401, "Invalid email or password")) := by
  constructor
  · intro h
    simp [login, h]
  · intro u h hne
    have hb : (u.passwordHash == hashPw p) = false := beq_eq_false_iff_ne.mpr hne
    simp [login, h, hb]

/-- Witness for C2: a non-existent email and a wrong password against the
seeded diner both yield the identical 401 result. -/
theorem claim2_witness :
    (findUserByEmail sampleState "nonexistent@test.com" = none
      ∧ login sampleState (some "nonexistent@test.com") (some "password") =
          .error (401, "Invalid email or password"))
    ∧ (findUserByEmail sampleState "diner@test.com" = some dinerUser0
      ∧ dinerUser0.passwordHash ≠ hashPw "wrongpassword"
      ∧ login sampleState (some "diner@test.com") (some "wrongpassword") =
          .error (401, "Invalid email or password")) := by
  refine ⟨⟨by rfl, ?_⟩, ⟨by rfl, by decide, ?_⟩⟩
  · exact (claim2_login_failure_indistinguishable sampleState
      "nonexistent@test.com" "password").1 (by rfl)
  · exact (claim2_login_failure_indistinguishable sampleState
      "diner@test.com" "wrongpassword").2 dinerUser0 (by rfl) (by decide)

/-- Claim C5: a `deleteUser` call whose target holds the Admin role fails
with status 403 for every authenticated caller — including another Admin —
and leaves the state (in particular the target user row) unchanged. -/
theorem claim5_admin_target_delete_forbidden (s : ServiceState) (t : Token)
    (targetId : Nat) (actor target : User)
    (hauth : requireAuth s (some t) = .ok actor)
    (hfind : findUserById s targetId = some target)
    (htadm : isAdminUser target = true) :
    ∃ msg, (deleteUser s (some t) targetId).1 = .error (403, msg)
      ∧ (deleteUser s (some t) targetId).2 = s := by
  by_cases hadm : isAdminUser actor = true
  · exact ⟨"unable to delete admin user", by simp [deleteUser, hauth, hadm, hfind, htadm]⟩
  · exact ⟨"unauthorized", by simp [deleteUser, hauth, hadm]⟩

/-- Witness for C5: the seeded admin tries to delete the admin user itself
and is denied with 403, the state unchanged. -/
theorem claim5_witness :
    requireAuth sampleState (some ⟨1, 0⟩) = .ok adminUser0
    ∧ findUserById sampleState 1 = some adminUser0
    ∧ isAdminUser adminUser0 = true
    ∧ ∃ msg, (deleteUser sampleState (some ⟨1, 0⟩) 1).1 = .error (403, msg)
        ∧ (deleteUser sampleState (some ⟨1, 0⟩) 1).2 = sampleState :=
  ⟨by rfl, by rfl, by rfl,
   claim5_admin_target_delete_forbidden sampleState ⟨1, 0⟩ 1 adminUser0 adminUser0
     (by rfl) (by rfl) (by rfl)⟩

/-- Claim C9: a `createFranchise` call by an authenticated Admin naming at
least one admin email that does not resolve to a user fails with status 404
and leaves the state — in particular the franchise set — unchanged. -/
theorem claim9_missing_admin_email_not_found (s : ServiceState) (tok : Option Token)
    (name : String) (emails : List String) (actor : User) (e : String)
    (hauth : requireAuth s tok = .ok actor)
    (hadm : isAdminUser actor = true)
    (hmem : e ∈ emails)
    (hmiss : findUserByEmail s e = none) :
    ∃ msg, (createFranchise s tok name emails).1 = .error (404, msg)
      ∧ (createFranchise s tok name emails).2 = s := by
  have hres := resolveEmails_eq_none s e emails hmem hmiss
  exact ⟨"unknown user for franchise admin", by simp [createFranchise, hauth, hadm, hres]⟩

/-- Witness for C9: the seeded admin names a non-existent email and gets a
404 with the franchise set untouched. -/
theorem claim9_witness :
    requireAuth sampleState (some ⟨1, 0⟩) = .ok adminUser0
    ∧ findUserByEmail sampleState "nonexistent@test.com" = none
    ∧ ∃ msg,
        (createFranchise sampleState (some ⟨1, 0⟩) "New Franchise"
          ["nonexistent@test.com"]).1 = .error (404, msg)
        ∧ (createFranchise sampleState (some ⟨1, 0⟩) "New Franchise"
            ["nonexistent@test.com"]).2 = sampleState :=
  ⟨by rfl, by rfl,
   claim9_missing_admin_email_not_found sampleState (some ⟨1, 0⟩) "New Franchise"
     ["nonexistent@test.com"] adminUser0 "nonexistent@test.com"
     (by rfl) (by rfl) (by simp) (by rfl)⟩

/-- Claim C10: an authenticated caller who is neither an Admin nor the user
whose franchises are requested receives a successful response whose body is
the empty list — the denial is an empty result, not an error. -/
theorem claim10_foreign_franchise_list_empty (s : ServiceState) (t : Token)
    (uid : Nat) (caller : User)
    (hauth : requireAuth s (some t) = .ok caller)
    (hnadm : isAdminUser caller = false)
    (hne : caller.id ≠ uid) :
    listFranchisesForUser s (some t) uid = .ok [] := by
  have hbe : (caller.id == uid) = false := beq_eq_false_iff_ne.mpr hne
  simp [listFranchisesForUser, hauth, hnadm, hbe]

/-- Witness for C10: the seeded diner asks for the franchisee's franchises
and receives a 200-style success with the empty list. -/
theorem claim10_witness :
    requireAuth sampleState (some ⟨2, 0⟩) = .ok dinerUser0
    ∧ isAdminUser dinerUser0 = false
    ∧ listFranchisesForUser sampleState (some ⟨2, 0⟩) 3 = .ok [] :=
  ⟨by rfl, by rfl,
   claim10_foreign_franchise_list_empty sampleState ⟨2, 0⟩ 3 dinerUser0
     (by rfl) (by rfl) (by decide)⟩

/-- Claim C7: the listing helper returns exactly the rows at offsets
`page*limit .. page*limit+limit-1` in stable order (hence never more than
`limit` rows), and `more` is true exactly when matching rows exist beyond
the returned page; in particular, over 5 rows with limit 3, page 0 returns
3 rows with `more = true` and page 1 returns 2 rows with `more = false`. -/
theorem claim7_pagination_contract {α : Type} (rows : List α) (page limit : Nat) :
    (listPage rows page limit).1 = (rows.drop (page * limit)).take limit
    ∧ (listPage rows page limit).1.length ≤ limit
    ∧ ((listPage rows page limit).2 = true ↔
        rows.length > page * limit + (listPage rows page limit).1.length)
    ∧ (listPage ([0, 1, 2, 3, 4] : List Nat) 0 3).1.length = 3
    ∧ (listPage ([0, 1, 2, 3, 4] : List Nat) 0 3).2 = true
    ∧ (listPage ([0, 1, 2, 3, 4] : List Nat) 1 3).1.length = 2
    ∧ (listPage ([0, 1, 2, 3, 4] : List Nat) 1 3).2 = false := by
  have hdlen : (rows.drop (page * limit)).length = rows.length - page * limit :=
    List.length_drop _ _
  have htk1 := List.length_take (limit + 1) (rows.drop (page * limit))
  have htk0 := List.length_take limit (rows.drop (page * limit))
  have h1 : (listPage rows page limit).1 = (rows.drop (page * limit)).take limit := by
    by_cases hc : ((rows.drop (page * limit)).take (limit + 1)).length = limit + 1
    · simp only [listPage, hc, beq_self_eq_true, if_true]
      rw [List.take_take]
      congr 1
      omega
    · have hcb := beq_eq_false_iff_ne.mpr hc
      simp only [listPage, hcb, Bool.false_eq_true, if_false]
      have hlen : (rows.drop (page * limit)).length ≤ limit := by omega
      rw [List.take_of_length_le hlen,
        List.take_of_length_le (le_trans hlen (Nat.le_succ _))]
  have h2 : (listPage rows page limit).1.length ≤ limit := by
    rw [h1]
    omega
  have h3 : (listPage rows page limit).2 = true ↔
      rows.length > page * limit + (listPage rows page limit).1.length := by
    rw [h1]
    by_cases hc : ((rows.drop (page * limit)).take (limit + 1)).length = limit + 1
    · simp only [listPage, hc, beq_self_eq_true, if_true]
      refine iff_of_true (by trivial) ?_
      omega
    · have hcb := beq_eq_false_iff_ne.mpr hc
      simp only [listPage, hcb, Bool.false_eq_true, if_false]
      refine iff_of_false (by simp) ?_
      omega
  exact ⟨h1, h2, h3, by decide, by decide, by decide, by decide⟩

/-- Claim C8: an absent name filter selects every row; a filter ending in a
star selects exactly the names having the part before the star as a prefix
(so "Foo*" matches "Foobar" and "Foo" but not "xFoo"); a filter without the
trailing star selects exactly the names equal to the filter. -/
theorem claim8_name_filter (p n fr : String) :
    matchName none n = true
    ∧ (matchName (some (p ++ "*")) n = true ↔ p.data <+: n.data)
    ∧ (fr.data.getLast? ≠ some '*' → (matchName (some fr) n = true ↔ n = fr))
    ∧ matchName (some "Foo*") "Foobar" = true
    ∧ matchName (some "Foo*") "Foo" = true
    ∧ matchName (some "Foo*") "xFoo" = false := by
  refine ⟨rfl, ?_, ?_, by decide, by decide, by decide⟩
  · have hdata : (p ++ "*").data = p.data ++ ['*'] := by rw [String.data_append]
    have hlast : (p ++ "*").data.getLast? = some '*' := by
      rw [hdata]
      exact List.getLast?_concat _
    have hdrop : (p ++ "*").data.dropLast = p.data := by
      rw [hdata]
      exact List.dropLast_concat
    simp [matchName, hlast, hdrop, List.isPrefixOf_iff_prefix]
  · intro hne
    have hb : (fr.data.getLast? == some '*') = false := beq_eq_false_iff_ne.mpr hne
    simp [matchName, hb]

/-- Witness for C8: instantiates the exact-match branch at the filter "Bar",
whose last character is not a star. -/
theorem claim8_witness :
    matchName (some "Bar") "Bar" = true ↔ "Bar" = "Bar" :=
  (claim8_name_filter "x" "Bar" "Bar").2.2.1 (by decide)

/-- Helper: bumping the revenue of a store id rewrites the first store
found under that id and nothing else about it. -/
theorem find?_bumpRevenue (stores : List Store) (sid amount : Nat) (st : Store)
    (h : stores.find? (fun x => x.id == sid) = some st) :
    (bumpRevenue stores sid amount).find? (fun x => x.id == sid) =
      some { st with totalRevenue := st.totalRevenue + amount } := by
  induction stores with
  | nil => simp at h
  | cons a t ih =>
    by_cases ha : (a.id == sid) = true
    · rw [List.find?_cons_of_pos (p := fun x => x.id == sid) t ha] at h
      injection h with h
      subst h
      have heq : a.id = sid := by simpa using ha
      have hcons : bumpRevenue (a :: t) sid amount =
          { a with totalRevenue := a.totalRevenue + amount } :: bumpRevenue t sid amount := by
        simp [bumpRevenue, heq]
      have hb : (({ a with totalRevenue := a.totalRevenue + amount } : Store).id == sid) = true := ha
      rw [hcons]
      exact List.find?_cons_of_pos (p := fun x => x.id == sid) (bumpRevenue t sid amount) hb
    · have hne : ¬ a.id = sid := by simpa using ha
      have hcons : bumpRevenue (a :: t) sid amount = a :: bumpRevenue t sid amount := by
        simp [bumpRevenue, hne]
      rw [List.find?_cons_of_neg (p := fun x => x.id == sid) t (by simpa using ha)] at h
      rw [hcons]
      rw [List.find?_cons_of_neg (p := fun x => x.id == sid) (bumpRevenue t sid amount)
        (by simpa using ha)]
      exact ih h

/-- Claim C3: when the fulfillment call reports rejection, `createOrder`
answers status 500 with the exact message "Failed to fulfill order at
factory" and the factory's report URL, the Order row persists in the
post-state (no rollback), and the store set — hence every store's
`totalRevenue` — is unchanged. -/
theorem claim3_factory_rejection_reported_not_rolled_back
    (s : ServiceState) (tok : Option Token) (fid sid : Nat)
    (items : List OrderItem) (factory : FactoryResponse) (diner : User)
    (hauth : requireAuth s tok = .ok diner)
    (hval : (storeExists s fid sid && itemsValid s items) = true)
    (hfail : factory.accepted = false) :
    (createOrder s tok fid sid items factory).1.1 = 500
    ∧ (createOrder s tok fid sid items factory).1.2 =
        [("message", BodyVal.str "Failed to fulfill order at factory"),
         ("followLinkToEndChaos", BodyVal.str factory.reportUrl)]
    ∧ (createOrder s tok fid sid items factory).2.orders =
        s.orders ++ [⟨s.nextId, diner.id, fid, sid, items⟩]
    ∧ (createOrder s tok fid sid items factory).2.stores = s.stores := by
  refine ⟨?_, ?_, ?_, ?_⟩ <;> simp [createOrder, hauth, hval, hfail]

/-- Witness for C3: the seeded diner orders the seeded menu item at the
seeded store and the factory rejects; the response is the pinned 500 body,
the order is persisted and the stores are untouched. -/
theorem claim3_witness :
    requireAuth sampleState (some ⟨2, 0⟩) = .ok dinerUser0
    ∧ (storeExists sampleState 10 20 && itemsValid sampleState [⟨30, "Veggie", 38⟩]) = true
    ∧ (createOrder sampleState (some ⟨2, 0⟩) 10 20 [⟨30, "Veggie", 38⟩]
        ⟨false, "https://factory.example/report/failed", ""⟩).1.1 = 500
    ∧ (createOrder sampleState (some ⟨2, 0⟩) 10 20 [⟨30, "Veggie", 38⟩]
        ⟨false, "https://factory.example/report/failed", ""⟩).1.2 =
        [("message", BodyVal.str "Failed to fulfill order at factory"),
         ("followLinkToEndChaos", BodyVal.str "https://factory.example/report/failed")]
    ∧ (createOrder sampleState (some ⟨2, 0⟩) 10 20 [⟨30, "Veggie", 38⟩]
        ⟨false, "https://factory.example/report/failed", ""⟩).2.stores = sampleState.stores := by
  have h := claim3_factory_rejection_reported_not_rolled_back sampleState (some ⟨2, 0⟩)
    10 20 [⟨30, "Veggie", 38⟩] ⟨false, "https://factory.example/report/failed", ""⟩
    dinerUser0 (by rfl) (by rfl) (by rfl)
  exact ⟨by rfl, by rfl, h.1, h.2.1, h.2.2.2⟩

/-- Claim C4 counterexample: at a concrete accepted order the success
response's body keys are `order`, `followLinkToEndChaos` and `jwt` — there
is no field named `fulfillmentReportUrl` and none named `fulfillmentJwt`,
contrary to the claim's field names. -/
theorem claim4_counterexample_field_names :
    (createOrder sampleState (some ⟨2, 0⟩) 10 20 [⟨30, "Veggie", 38⟩]
        ⟨true, "https://factory.example/report/123", "factory.jwt.token"⟩).1.1 = 200
    ∧ (createOrder sampleState (some ⟨2, 0⟩) 10 20 [⟨30, "Veggie", 38⟩]
        ⟨true, "https://factory.example/report/123", "factory.jwt.token"⟩).1.2.map
          Prod.fst = ["order", "followLinkToEndChaos", "jwt"]
    ∧ ¬ ("fulfillmentReportUrl" ∈ (createOrder sampleState (some ⟨2, 0⟩) 10 20
        [⟨30, "Veggie", 38⟩]
        ⟨true, "https://factory.example/report/123", "factory.jwt.token"⟩).1.2.map Prod.fst)
    ∧ ¬ ("fulfillmentJwt" ∈ (createOrder sampleState (some ⟨2, 0⟩) 10 20
        [⟨30, "Veggie", 38⟩]
        ⟨true, "https://factory.example/report/123", "factory.jwt.token"⟩).1.2.map Prod.fst) :=
  ⟨by rfl, by rfl, by decide, by decide⟩

/-- Claim C4 (amended): when the fulfillment call reports acceptance,
`createOrder` answers status 200 whose body carries the persisted order,
the report URL under the key `followLinkToEndChaos`, and the fulfillment
JWT under the key `jwt`, and the target store's `totalRevenue` grows by
exactly the sum of the order's item prices. -/
theorem claim4_fulfillment_success_response
    (s : ServiceState) (tok : Option Token) (fid sid : Nat)
    (items : List OrderItem) (factory : FactoryResponse) (diner : User) (st : Store)
    (hauth : requireAuth s tok = .ok diner)
    (hval : (storeExists s fid sid && itemsValid s items) = true)
    (hacc : factory.accepted = true)
    (hst : s.stores.find? (fun x => x.id == sid) = some st) :
    (createOrder s tok fid sid items factory).1.1 = 200
    ∧ (createOrder s tok fid sid items factory).1.2 =
        [("order", BodyVal.ord ⟨s.nextId, diner.id, fid, sid, items⟩),
         ("followLinkToEndChaos", BodyVal.str factory.reportUrl),
         ("jwt", BodyVal.str factory.jwt)]
    ∧ (createOrder s tok fid sid items factory).2.orders =
        s.orders ++ [⟨s.nextId, diner.id, fid, sid, items⟩]
    ∧ (createOrder s tok fid sid items factory).2.stores.find? (fun x => x.id == sid) =
        some { st with totalRevenue := st.totalRevenue + orderTotal items } := by
  refine ⟨?_, ?_, ?_, ?_⟩
  · simp [createOrder, hauth, hval, hacc]
  · simp [createOrder, hauth, hval, hacc]
  · simp [createOrder, hauth, hval, hacc]
  · have hb := find?_bumpRevenue s.stores sid (orderTotal items) st hst
    simp only [createOrder, hauth, hval, hacc, Bool.true_and, if_true]
    simpa using hb

/-- Witness for C4: the seeded diner's accepted order carries the pinned
body and raises the seeded store's revenue from 0 to the item price sum. -/
theorem claim4_witness :
    requireAuth sampleState (some ⟨2, 0⟩) = .ok dinerUser0
    ∧ sampleState.stores.find? (fun x => x.id == 20) = some ⟨20, 10, "Test Store", 0⟩
    ∧ (createOrder sampleState (some ⟨2, 0⟩) 10 20 [⟨30, "Veggie", 38⟩]
        ⟨true, "https://factory.example/report/123", "factory.jwt.token"⟩).1.1 = 200
    ∧ (createOrder sampleState (some ⟨2, 0⟩) 10 20 [⟨30, "Veggie", 38⟩]
        ⟨true, "https://factory.example/report/123", "factory.jwt.token"⟩).2.stores.find?
          (fun x => x.id == 20) = some ⟨20, 10, "Test Store", 38⟩ := by
  have h := claim4_fulfillment_success_response sampleState (some ⟨2, 0⟩) 10 20
    [⟨30, "Veggie", 38⟩] ⟨true, "https://factory.example/report/123", "factory.jwt.token"⟩
    dinerUser0 ⟨20, 10, "Test Store", 0⟩ (by rfl) (by rfl) (by rfl) (by rfl)
  exact ⟨by rfl, by rfl, h.1, h.2.2.2⟩

/-- Claim C6 counterexample: the generic "unauthorized" message does not
belong only to the 401 case — a concrete authenticated but unprivileged
profile update is denied with 403 carrying exactly the same "unauthorized"
message the unauthenticated 401 carries. -/
theorem claim6_counterexample_generic_message_on_403 :
    requireAuth sampleState none = .error (401, "unauthorized")
    ∧ (updateUser sampleState (some ⟨2, 0⟩) 3 "Hacker" "hacker@test.com" "hacked").1 =
        .error (403, "unauthorized") :=
  ⟨by rfl, by rfl⟩

/-- Claim C6 (amended): every identity-requiring action answers an
unauthenticated call with 401 and the generic "unauthorized" message, and
an authenticated but insufficiently privileged call with 403 — the status
codes separate the two cases, but the messages do not: the 403 denials of
franchise creation, menu-item addition and store creation carry their
endpoint-specific messages, while the 403 denials of user listing, user
deletion and user update reuse the generic "unauthorized" message. -/
theorem claim6_status_code_separation
    (s : ServiceState) (nf : Option String) (page limit targetId fid sid uid : Nat)
    (n e pw fname sname title descr img : String) (price : Nat)
    (femails : List String) (items : List OrderItem) (factory : FactoryResponse) :
    (listUsers s none nf page limit = .error (401, "unauthorized")
      ∧ (updateUser s none targetId n e pw).1 = .error (401, "unauthorized")
      ∧ (deleteUser s none targetId).1 = .error (401, "unauthorized")
      ∧ (createFranchise s none fname femails).1 = .error (401, "unauthorized")
      ∧ (addMenuItem s none title descr img price).1 = .error (401, "unauthorized")
      ∧ (createStore s none fid sname).1 = .error (401, "unauthorized")
      ∧ (createOrder s none fid sid items factory).1 =
          (401, [("message", BodyVal.str "unauthorized")])
      ∧ listFranchisesForUser s none uid = .error (401, "unauthorized"))
    ∧ (∀ (t : Token) (actor : User), requireAuth s (some t) = .ok actor →
        isAdminUser actor = false →
        (createFranchise s (some t) fname femails).1 =
            .error (403, "unable to create a franchise")
        ∧ (addMenuItem s (some t) title descr img price).1 =
            .error (403, "unable to add menu item")
        ∧ (isFranchiseeOf actor fid = false →
            (createStore s (some t) fid sname).1 = .error (403, "unable to create a store"))
        ∧ listUsers s (some t) nf page limit = .error (403, "unauthorized")
        ∧ (deleteUser s (some t) targetId).1 = .error (403, "unauthorized")
        ∧ (actor.id ≠ targetId →
            (updateUser s (some t) targetId n e pw).1 = .error (403, "unauthorized"))) := by
  constructor
  · exact ⟨rfl, rfl, rfl, rfl, rfl, rfl, rfl, rfl⟩
  · intro t actor hauth hnadm
    refine ⟨by simp [createFranchise, hauth, hnadm],
      by simp [addMenuItem, hauth, hnadm], ?_,
      by simp [listUsers, hauth, hnadm],
      by simp [deleteUser, hauth, hnadm], ?_⟩
    · intro hff
      simp [createStore, hauth, hnadm, hff]
    · intro hne
      have hbe : (actor.id == targetId) = false := beq_eq_false_iff_ne.mpr hne
      simp [updateUser, hauth, hbe, hnadm]

/-- Witness for C6: the seeded diner is denied 403 with the endpoint-specific
messages on franchise creation, menu-item addition and store creation, and
403 with the generic message on user listing and on updating another user. -/
theorem claim6_witness :
    requireAuth sampleState (some ⟨2, 0⟩) = .ok dinerUser0
    ∧ isAdminUser dinerUser0 = false
    ∧ isFranchiseeOf dinerUser0 10 = false
    ∧ (createFranchise sampleState (some ⟨2, 0⟩) "New Franchise"
        ["franchisee@test.com"]).1 = .error (403, "unable to create a franchise")
    ∧ (addMenuItem sampleState (some ⟨2, 0⟩) "NonAdmin Item" "Not admin"
        "pizza9.png" 3).1 = .error (403, "unable to add menu item")
    ∧ (createStore sampleState (some ⟨2, 0⟩) 10 "Store").1 =
        .error (403, "unable to create a store")
    ∧ listUsers sampleState (some ⟨2, 0⟩) none 0 10 = .error (403, "unauthorized")
    ∧ (updateUser sampleState (some ⟨2, 0⟩) 3 "Hacker" "hacker@test.com" "hacked").1 =
        .error (403, "unauthorized") := by
  have h := (claim6_status_code_separation sampleState none 0 10 3 10 20 3 "Hacker"
    "hacker@test.com" "hacked" "New Franchise" "Store" "NonAdmin Item" "Not admin"
    "pizza9.png" 3 ["franchisee@test.com"] [] ⟨true, "", ""⟩).2
    ⟨2, 0⟩ dinerUser0 (by rfl) (by rfl)
  exact ⟨by rfl, by rfl, by rfl, h.1, h.2.1, h.2.2.1 (by rfl), h.2.2.2.1,
    h.2.2.2.2.2 (by decide)⟩
